import Mathlib

/-!
Shallow embedding of the clox virtual-machine core (code blocks, opcode
table, disassembler, UTF-8 decoding, source buffers and source streams)
translated from the C sources under src/, together with theorems settling
the frozen claims about them.

Modelling conventions:
* a C byte (uint8_t) is a `Nat` (theorems carry `< 256` bounds where the
  value range matters);
* a heap byte array is a `List Nat` whose length is the allocation size;
  `dim` (the repository's allocation macro) expands to calloc, so fresh
  cells really are zero; cells made reachable by realloc (`redim`) are
  indeterminate in C and modelled as zero — no theorem below depends on
  the value of such a cell;
* size_t / uint32_t arithmetic that can wrap is taken modulo 2^64 / 2^32
  explicitly; everything else stays in `Nat` / `Int`;
* a C function that can abort (fail(...) diagnostics, writes through a
  null or out-of-range pointer) returns an `Option`, `none` being the
  aborted execution.
-/

/-- Size in bytes of a pointer word on the 64-bit host (CLOX_SIZEOF_WORD_PTR = sizeof(int*)). -/
def CLOX_SIZEOF_WORD_PTR : Nat := 8

/-- Embedding of the macro alignto(size, alignment) = (size + alignment - 1) & ~(alignment - 1) from src/include/clox/base/bits.h; for a power-of-two alignment this rounds size up to the next multiple of alignment, which is what the bit mask computes. -/
def alignto (size alignment : Nat) : Nat :=
  (size + alignment - 1) / alignment * alignment

/-- Embedding of cloxAlignToWordPtr from src/include/clox/vm/code_block.h. -/
def cloxAlignToWordPtr (size : Nat) : Nat :=
  alignto size CLOX_SIZEOF_WORD_PTR

/-- Embedding of the dim allocation macro (src/include/clox/base/alloc.h): dim(byte_t, n) is ccalloc(n, 1), an n-byte zero-filled array. -/
def dim (n : Nat) : List Nat :=
  List.replicate n 0

/-- Embedding of the redim macro (realloc): the prefix up to the new size is preserved, cells beyond the old size are indeterminate in C and modelled as zero. -/
def redim (a : List Nat) (n : Nat) : List Nat :=
  a.take n ++ List.replicate (n - a.length) 0

/-- Embedding of bufcpy(dest, source, count) from src/include/clox/base/byte.h: dest[i] = source[i] for i < count, the rest of dest unchanged. The final take keeps the model array at the allocation size (a count beyond it would be a heap overflow in C). -/
def bufcpy (dest source : List Nat) (count : Nat) : List Nat :=
  (source.take count ++ dest.drop count).take dest.length

/-- Subtraction of size_t values: a - b computed modulo 2^64, as the C expression (size_t)(a - b) does for a, b < 2^64. -/
def sub64 (a b : Nat) : Nat :=
  (a + (18446744073709551616 - b % 18446744073709551616)) % 18446744073709551616

/-- State of a CloxCodeBlock_t (src/include/clox/vm/code_block.h): byte array of length capacity, a count of stored bytes, and the capacity. -/
structure CloxCodeBlock where
  array : List Nat
  count : Nat
  capacity : Nat
deriving Repr, DecidableEq

/-- Embedding of cloxInitCodeBlock (src/lib/vm/code_block.c): a nonzero capacity is aligned to the pointer word and allocated, a zero capacity leaves the block empty with a null array. -/
def cloxInitCodeBlock (capacity : Nat) : CloxCodeBlock :=
  if capacity ≠ 0 then
    let c := cloxAlignToWordPtr capacity
    { array := dim c, count := 0, capacity := c }
  else
    { array := [], count := 0, capacity := 0 }

/-- Embedding of cloxFreeCodeBlock: releases the array and zeroes all fields. -/
def cloxFreeCodeBlock (_ : CloxCodeBlock) : CloxCodeBlock :=
  { array := [], count := 0, capacity := 0 }

/-- Embedding of cloxCodeBlockResize (src/lib/vm/code_block.c). Note the source truncates count to newCapacity - 1 when count >= newCapacity, and that a block of capacity zero is re-initialized from scratch. -/
def cloxCodeBlockResize (blk : CloxCodeBlock) (newCapacity : Nat) : CloxCodeBlock :=
  if blk.capacity ≠ 0 then
    if newCapacity ≠ 0 then
      let nc := cloxAlignToWordPtr newCapacity
      { array := redim blk.array nc,
        count := if blk.count ≥ nc then nc - 1 else blk.count,
        capacity := nc }
    else
      cloxFreeCodeBlock blk
  else
    cloxInitCodeBlock newCapacity

/-- Embedding of cloxCodeBlockExpand: resize to capacity + offset. -/
def cloxCodeBlockExpand (blk : CloxCodeBlock) (offset : Nat) : CloxCodeBlock :=
  cloxCodeBlockResize blk (blk.capacity + offset)

/-- Embedding of cloxCodeBlockShrink: resize to capacity - offset, computed in size_t. -/
def cloxCodeBlockShrink (blk : CloxCodeBlock) (offset : Nat) : CloxCodeBlock :=
  cloxCodeBlockResize blk (sub64 blk.capacity offset)

/-- Embedding of clox_CodeBlockGrow: resize to capacity * CLOX_CODE_BLOCK_GROWING_FACTOR (= 2). A capacity of zero stays zero. -/
def clox_CodeBlockGrow (blk : CloxCodeBlock) : CloxCodeBlock :=
  cloxCodeBlockResize blk (blk.capacity * 2)

/-- Embedding of cloxCodeBlockPush: grow when count >= capacity, then store at index count and advance count. Storing outside the allocated array (in particular through the null array a zero-capacity block keeps after growing) aborts: `none`. -/
def cloxCodeBlockPush (blk : CloxCodeBlock) (value : Nat) : Option CloxCodeBlock :=
  let b := if blk.count ≥ blk.capacity then clox_CodeBlockGrow blk else blk
  if b.count < b.array.length then
    some { b with array := b.array.set b.count value, count := b.count + 1 }
  else
    none

/-- Embedding of clox_CodeBlockCheckBounds (src/lib/vm/code_block.c line 110): (index > 0) && (index < capacity) — the bound really is capacity, not count, and index 0 is rejected. -/
def clox_CodeBlockCheckBounds (blk : CloxCodeBlock) (index : Nat) : Bool :=
  decide (0 < index) && decide (index < blk.capacity)

/-- Embedding of cloxCodeBlockPeek: checks clox_CodeBlockCheckBounds on count - offset (size_t arithmetic) and reads array[count - offset - 1]; a failed check is the fatal index-out-of-bounds diagnostic, `none`. -/
def cloxCodeBlockPeek (blk : CloxCodeBlock) (offset : Nat) : Option Nat :=
  let index := sub64 blk.count offset
  if clox_CodeBlockCheckBounds blk index then some (blk.array.getD (index - 1) 0) else none

/-- Embedding of cloxCodeBlockPop: removes and returns the last stored byte, failing (buffer underrun) on an empty block. -/
def cloxCodeBlockPop (blk : CloxCodeBlock) : Option (Nat × CloxCodeBlock) :=
  if 0 < blk.count then
    some (blk.array.getD (blk.count - 1) 0, { blk with count := blk.count - 1 })
  else
    none

/-- Embedding of cloxCodeBlockTop: the last stored byte, failing (buffer underrun) on an empty block. -/
def cloxCodeBlockTop (blk : CloxCodeBlock) : Option Nat :=
  if 0 < blk.count then some (blk.array.getD (blk.count - 1) 0) else none

/-- Embedding of cloxCodeBlockGet: bounds check via clox_CodeBlockCheckBounds (so against capacity, rejecting index 0), then array[index]. -/
def cloxCodeBlockGet (blk : CloxCodeBlock) (index : Nat) : Option Nat :=
  if clox_CodeBlockCheckBounds blk index then some (blk.array.getD index 0) else none

/-- Embedding of cloxCodeBlockWrite (src/lib/vm/code_block.c lines 171-181): expand once when count + n >= capacity, then bufcpy the n bytes to the START of the array; the source never advances codeBlock->count. -/
def cloxCodeBlockWrite (blk : CloxCodeBlock) (buffer : List Nat) : CloxCodeBlock :=
  let b :=
    if blk.count + buffer.length ≥ blk.capacity then
      cloxCodeBlockExpand blk (blk.count + buffer.length - blk.capacity)
    else
      blk
  { b with array := bufcpy b.array buffer buffer.length }

/-- State of a CloxCodeBlockReader_t: the borrowed array and count, and the cursor index. -/
structure CloxCodeBlockReader where
  array : List Nat
  count : Nat
  index : Nat
deriving Repr, DecidableEq

/-- Embedding of cloxInitCodeBlockReader: borrow (array, count) from the block, index 0. -/
def cloxInitCodeBlockReader (blk : CloxCodeBlock) : CloxCodeBlockReader :=
  { array := blk.array, count := blk.count, index := 0 }

/-- Embedding of cloxCodeBlockReaderIsAtEnd (src/include/clox/vm/code_block.h line 356): the source returns index < count — true while bytes REMAIN, despite the name. -/
def cloxCodeBlockReaderIsAtEnd (rd : CloxCodeBlockReader) : Bool :=
  decide (rd.index < rd.count)

/-- Embedding of cloxCodeBlockReaderGet: the byte at index, advancing; failing (buffer overrun) when index >= count. -/
def cloxCodeBlockReaderGet (rd : CloxCodeBlockReader) : Option (Nat × CloxCodeBlockReader) :=
  if rd.index < rd.count then
    some (rd.array.getD rd.index 0, { rd with index := rd.index + 1 })
  else
    none

/-- Embedding of cloxCodeBlockReaderTop: the byte at index without advancing. -/
def cloxCodeBlockReaderTop (rd : CloxCodeBlockReader) : Option Nat :=
  if rd.index < rd.count then some (rd.array.getD rd.index 0) else none

/-- Loop of cloxCodeBlockReaderRead (src/lib/vm/code_block.c lines 277-278), with an explicit structural fuel (the loop guard readCount < n bounds the iterations by n - readCount, which the caller passes as the fuel): for (readCount = 0; readCount < n && i < cnt; readCount++, i++) out[readCount] = array[i + readCount]. Both counters advance each iteration, and the array subscript is their SUM. Returns the bytes copied and the final i. -/
def clox_ReaderReadLoopAux (arr : List Nat) (cnt n : Nat) : Nat → Nat → Nat → List Nat × Nat
  | 0, _, i => ([], i)
  | fuel + 1, readCount, i =>
    if readCount < n ∧ i < cnt then
      let rest := clox_ReaderReadLoopAux arr cnt n fuel (readCount + 1) (i + 1)
      (arr.getD (i + readCount) 0 :: rest.1, rest.2)
    else
      ([], i)

/-- Entry to the read loop: the fuel n - readCount never runs out before the guard readCount < n fails, so this is the C loop exactly. -/
def clox_ReaderReadLoop (arr : List Nat) (cnt n readCount i : Nat) : List Nat × Nat :=
  clox_ReaderReadLoopAux arr cnt n (n - readCount) readCount i

/-- Embedding of cloxCodeBlockReaderRead: runs the loop from (0, index), returns the read count, the bytes written to the output buffer, and the reader with its new index. -/
def cloxCodeBlockReaderRead (rd : CloxCodeBlockReader) (n : Nat) : Nat × List Nat × CloxCodeBlockReader :=
  let r := clox_ReaderReadLoop rd.array rd.count n 0 rd.index
  (r.1.length, r.1, { rd with index := r.2 })

/-- Embedding of cloxCodeBlockReaderPeek: the byte at index + offset, failing when index + offset >= count. -/
def cloxCodeBlockReaderPeek (rd : CloxCodeBlockReader) (offset : Nat) : Option Nat :=
  if rd.index + offset < rd.count then some (rd.array.getD (rd.index + offset) 0) else none

/-- Opcode argument-taking modes, the CloxOpMode_t enumeration of src/include/clox/vm/opcode.h in declaration order. -/
def CLOX_OP_MODE_NONE : Nat := 0

/-- Mode of an opcode taking the single following byte as argument. -/
def CLOX_OP_MODE_BYTE : Nat := 1

/-- State of a CloxOpCodeInfo_t: a display name (None models a null char pointer), the numeric code (the C field is the int-typed enum CloxOpCode_t), and the mode. -/
structure CloxOpCodeInfo where
  name : Option String
  code : Int
  mode : Nat
deriving Repr, DecidableEq

/-- Modelled from the spec: the entries of clox_OpCodeInfos (src/lib/vm/opcode.c lines 19-63) beyond index 0 come from the x-macro include file clox/vm/opcode.inc, which is not among the repository files under src/. The spec states that no opcode beyond nop is defined in the current source, so the 256-entry table holds the nop descriptor at index 0 (written out literally in opcode.c) and, by C99 designated-initializer semantics, zero-filled entries elsewhere: null name, code 0, mode 0. -/
def clox_OpCodeInfos (i : Nat) : CloxOpCodeInfo :=
  if i = 0 then
    { name := some "nop", code := 0, mode := CLOX_OP_MODE_NONE }
  else
    { name := none, code := 0, mode := CLOX_OP_MODE_NONE }

/-- Embedding of cloxGetOpCodeInfo (src/lib/vm/opcode.c lines 65-95): an opcode outside [0, 256) yields FALSE and the descriptor {name = "uknown" (sic, as the source spells it), code, mode NONE}; an opcode inside the range yields TRUE and a copy of the table entry, whether or not that entry was ever assigned. -/
def cloxGetOpCodeInfo (opCode : Int) : Bool × CloxOpCodeInfo :=
  if opCode < 0 ∨ 256 ≤ opCode then
    (false, { name := some "uknown", code := opCode, mode := CLOX_OP_MODE_NONE })
  else
    (true, clox_OpCodeInfos opCode.toNat)

/-- Uppercase hexadecimal digit for a value below 16, as printf %X renders it. -/
def hexDigit (n : Nat) : Char :=
  if n < 10 then Char.ofNat (48 + n) else Char.ofNat (55 + n)

/-- Uppercase hexadecimal digits of n, most significant first; empty for 0. -/
def hexDigits (n : Nat) : List Char :=
  if h : n = 0 then [] else hexDigits (n / 16) ++ [hexDigit (n % 16)]
termination_by n
decreasing_by exact Nat.div_lt_self (Nat.pos_of_ne_zero h) (by omega)

/-- Rendering of printf "%0wX": n in uppercase hexadecimal, zero-padded on the left to at least width w. -/
def printfHex (w n : Nat) : String :=
  let ds := if n = 0 then [hexDigit 0] else hexDigits n
  String.mk (List.replicate (w - ds.length) '0' ++ ds)

/-- Rendering of printf "%-ws": s left-justified in a field of width w, padded with spaces on the right. -/
def printfLeftJust (w : Nat) (s : String) : String :=
  s ++ String.mk (List.replicate (w - s.length) ' ')

/-- Embedding of clox_DisassembleInstruction (src/lib/vm/debug.c lines 20-52) on the 64-bit host (offset format "%08X", name format "%-16s"): read the opcode byte, look it up, print the offset and name, then consume operands per the mode (NONE: nothing; BYTE: one byte printed " %02X"; SCAN: notimpl(); others: unreach()), then the newline. Produces the printed line and the advanced reader, or `none` for the fatal paths: a reader overrun, printing a null name, notimpl and unreach. The not-found branch prints "uknown (%02X)" of the descriptor's code field. -/
def clox_DisassembleInstruction (rd : CloxCodeBlockReader) : Option (String × CloxCodeBlockReader) :=
  match cloxCodeBlockReaderGet rd with
  | none => none
  | some (op, rd1) =>
    let info := cloxGetOpCodeInfo (op : Int)
    if info.1 then
      match info.2.name with
      | none => none
      | some nm =>
        let head := printfHex 8 (rd1.index - 1) ++ " " ++ printfLeftJust 16 nm
        if info.2.mode = CLOX_OP_MODE_NONE then
          some (head ++ "\n", rd1)
        else if info.2.mode = CLOX_OP_MODE_BYTE then
          match cloxCodeBlockReaderGet rd1 with
          | none => none
          | some (arg, rd2) => some (head ++ " " ++ printfHex 2 arg ++ "\n", rd2)
        else
          none
    else
      some (printfHex 8 (rd1.index - 1) ++ " uknown (" ++ printfHex 2 info.2.code.toNat ++ ")" ++ "\n", rd1)

/-- Loop of cloxDisassembleCodeBlock (src/lib/vm/debug.c lines 63-64): while (!cloxCodeBlockReaderIsAtEnd(reader)) print two spaces and one instruction. Because the embedded cloxCodeBlockReaderIsAtEnd returns index < count, the body runs exactly while index >= count. Fuel bounds the iterations; `none` is a fatal abort inside the body (the fuel is never exhausted in the executions the theorems below evaluate). -/
def clox_DisassembleLoop : CloxCodeBlockReader → Nat → Option String
  | _, 0 => none
  | rd, fuel + 1 =>
    if cloxCodeBlockReaderIsAtEnd rd = false then
      match clox_DisassembleInstruction rd with
      | none => none
      | some (line, rd1) =>
        match clox_DisassembleLoop rd1 fuel with
        | none => none
        | some rest => some ("  " ++ line ++ rest)
    else
      some ""

/-- Embedding of cloxDisassembleCodeBlock (src/lib/vm/debug.c lines 54-67): build a reader; when its borrowed array is null (modelled by the empty list) skip the loop and emit nothing, otherwise run the loop. -/
def cloxDisassembleCodeBlock (blk : CloxCodeBlock) : Option String :=
  let rd := cloxInitCodeBlockReader blk
  if rd.array.isEmpty then some "" else clox_DisassembleLoop rd (rd.count + 1)

/-- Error code UTF8_ERROR_INVALIDUTF8 from src/include/clox/base/utf8.h. -/
def UTF8_ERROR_INVALIDUTF8 : Int := -3

/-- Embedding of the utf_cont(ch) macro, ((ch) & 0xc0) == 0x80: for a byte value this is exactly ch / 64 = 2, i.e. 0x80 <= ch <= 0xBF. -/
def utf_cont (ch : Nat) : Prop :=
  ch / 64 = 2

instance (ch : Nat) : Decidable (utf_cont ch) := by
  unfold utf_cont
  exact inferInstance

/-- Embedding of utf8_iterate (src/lib/base/utf8.c lines 106-162). The pair is (return value, *dst): *dst starts at -1 and is assigned only on success; the return value is the consumed width 1..4, 0 for strlen == 0, or UTF8_ERROR_INVALIDUTF8. The C pointer-against-end guards become guards on len, the number of readable bytes (4 when strlen < 0, else strlen); byte masks and shifts are written in arithmetic form: x & 0x3f = x % 64, x & 0x1f = x % 32, x & 0xf = x % 16, x & 7 = x % 8, and the unsigned test (uint32_t)(uc - 0xc2) > 0xf4 - 0xc2 is uc < 0xC2 or 0xF4 < uc. Bytes are read with getD; every read the control flow reaches is below len, which the caller keeps within the buffer. -/
def utf8_iterate (str : List Nat) (strlen : Int) : Int × Int :=
  if strlen = 0 then (0, -1)
  else
    let len : Nat := if strlen < 0 then 4 else strlen.toNat
    let uc := str.getD 0 0
    if uc < 0x80 then (1, (uc : Int))
    else if uc < 0xC2 ∨ 0xF4 < uc then (UTF8_ERROR_INVALIDUTF8, -1)
    else if uc < 0xE0 then
      if len < 2 ∨ ¬ utf_cont (str.getD 1 0) then (UTF8_ERROR_INVALIDUTF8, -1)
      else (2, ((uc % 32) * 64 + str.getD 1 0 % 64 : Nat))
    else if uc < 0xF0 then
      if len < 3 ∨ ¬ utf_cont (str.getD 1 0) ∨ ¬ utf_cont (str.getD 2 0) then
        (UTF8_ERROR_INVALIDUTF8, -1)
      else if uc = 0xED ∧ 0x9F < str.getD 1 0 then (UTF8_ERROR_INVALIDUTF8, -1)
      else
        let v := (uc % 16) * 4096 + (str.getD 1 0 % 64) * 64 + str.getD 2 0 % 64
        if v < 0x800 then (UTF8_ERROR_INVALIDUTF8, -1)
        else (3, (v : Int))
    else
      if len < 4 ∨ ¬ utf_cont (str.getD 1 0) ∨ ¬ utf_cont (str.getD 2 0) ∨ ¬ utf_cont (str.getD 3 0) then
        (UTF8_ERROR_INVALIDUTF8, -1)
      else if uc = 0xF0 ∧ str.getD 1 0 < 0x90 then (UTF8_ERROR_INVALIDUTF8, -1)
      else if uc = 0xF4 ∧ 0x8F < str.getD 1 0 then (UTF8_ERROR_INVALIDUTF8, -1)
      else
        (4, ((uc % 8) * 262144 + (str.getD 1 0 % 64) * 4096 + (str.getD 2 0 % 64) * 64 + str.getD 3 0 % 64 : Nat))

/-- Specification-level UTF-8 decoding, following the words of the spec (section 4.2, UTF-8 decoding rules): ASCII bytes stand alone; leading bytes C2..DF, E0..EF, F0..F4 take 1, 2, 3 continuation bytes in 80..BF, with the tightened second-byte ranges at 0xE0 (at least A0), 0xED (at most 9F), 0xF0 (at least 90), 0xF4 (at most 8F); the scalar value is the standard one. Written from the spec so the embedded utf8_iterate can be compared against it. -/
def specUtf8Decode (l : List Nat) : Option (Nat × Nat) :=
  match l with
  | [] => none
  | b0 :: rest =>
    if b0 ≤ 0x7F then some (b0, 1)
    else if 0xC2 ≤ b0 ∧ b0 ≤ 0xDF then
      match rest with
      | b1 :: _ =>
        if 0x80 ≤ b1 ∧ b1 ≤ 0xBF then some ((b0 - 0xC0) * 64 + (b1 - 0x80), 2) else none
      | [] => none
    else if 0xE0 ≤ b0 ∧ b0 ≤ 0xEF then
      match rest with
      | b1 :: b2 :: _ =>
        let lo1 := if b0 = 0xE0 then 0xA0 else 0x80
        let hi1 := if b0 = 0xED then 0x9F else 0xBF
        if lo1 ≤ b1 ∧ b1 ≤ hi1 ∧ 0x80 ≤ b2 ∧ b2 ≤ 0xBF then
          some ((b0 - 0xE0) * 4096 + (b1 - 0x80) * 64 + (b2 - 0x80), 3)
        else none
      | _ => none
    else if 0xF0 ≤ b0 ∧ b0 ≤ 0xF4 then
      match rest with
      | b1 :: b2 :: b3 :: _ =>
        let lo1 := if b0 = 0xF0 then 0x90 else 0x80
        let hi1 := if b0 = 0xF4 then 0x8F else 0xBF
        if lo1 ≤ b1 ∧ b1 ≤ hi1 ∧ 0x80 ≤ b2 ∧ b2 ≤ 0xBF ∧ 0x80 ≤ b3 ∧ b3 ≤ 0xBF then
          some ((b0 - 0xF0) * 262144 + (b1 - 0x80) * 4096 + (b2 - 0x80) * 64 + (b3 - 0x80), 4)
        else none
      | _ => none
    else none

/-- Source encodings, the CloxSourceEncoding_t of src/include/clox/source/source_buffer.h. -/
inductive CloxSourceEncoding where
  | ascii
  | utf8
deriving Repr, DecidableEq

/-- State of a CloxSourceBuffer_t: the byte array and its size. -/
structure CloxSourceBuffer where
  data : List Nat
  size : Nat
deriving Repr, DecidableEq

/-- Embedding of cloxCreateSourceBufferFromText (src/lib/source/source_buffer.c): size = strlen + 1, the text copied in; the final cell comes from dim (calloc), so it is zero. The argument is the text's byte sequence, without its terminator. -/
def cloxCreateSourceBufferFromText (text : List Nat) : CloxSourceBuffer :=
  { data := bufcpy (dim (text.length + 1)) text text.length, size := text.length + 1 }

/-- Embedding of cloxSourceBufferGetChar (src/lib/source/source_buffer.c lines 94-125). The C function takes an out-parameter for the width and writes it only when the pointer is non-null AND the pointed-to value is nonzero — if (outOffset && *outOffset) *outOffset = offset — so the caller's variable keeps its previous (in the real caller: uninitialized) value otherwise; offIn is that incoming value and the second component the value after the call. At end of input (position >= size) the function's own offset local is never assigned, so nothing meaningful could be stored either way; the model leaves offIn in place there. -/
def cloxSourceBufferGetChar (buf : CloxSourceBuffer) (encoding : CloxSourceEncoding) (position : Nat) (offIn : Int) : Int × Int :=
  if position < buf.size then
    match encoding with
    | CloxSourceEncoding.ascii =>
      ((buf.data.getD position 0 : Int), if offIn ≠ 0 then 1 else offIn)
    | CloxSourceEncoding.utf8 =>
      let r := utf8_iterate (buf.data.drop position) ((buf.size : Int) - (position : Int))
      (r.2, if offIn ≠ 0 then r.1 else offIn)
  else
    (-1, offIn)

/-- State of a CloxSourceLocation_t: character index (uint64_t), column and line (uint32_t). -/
structure CloxSourceLocation where
  ch : Nat
  co : Nat
  ln : Nat
deriving Repr, DecidableEq

/-- State of a CloxSourceStream_t. hasStream models whether the FILE pointer is non-null; the path field plays no part in reading and is omitted. -/
structure CloxSourceStream where
  hasStream : Bool
  isStdin : Bool
  isInitialized : Bool
  isOpen : Bool
  encoding : CloxSourceEncoding
  buffer : CloxSourceBuffer
  streamLocation : CloxSourceLocation
  beginLocation : CloxSourceLocation
  forwardLocation : CloxSourceLocation
deriving Repr, DecidableEq

/-- Embedding of cloxCreateSourceStreamFromText (src/lib/source/source_stream.c lines 52-55): clox_CreateSourceStream(NULL, NULL, FALSE, FALSE, FALSE, FALSE, encoding, bufferFromText) — in particular isInitialized and isOpen are FALSE and there is no file handle; all three locations reset to zero. -/
def cloxCreateSourceStreamFromText (text : List Nat) (encoding : CloxSourceEncoding) : CloxSourceStream :=
  { hasStream := false
    isStdin := false
    isInitialized := false
    isOpen := false
    encoding := encoding
    buffer := cloxCreateSourceBufferFromText text
    streamLocation := { ch := 0, co := 0, ln := 0 }
    beginLocation := { ch := 0, co := 0, ln := 0 }
    forwardLocation := { ch := 0, co := 0, ln := 0 } }

/-- Embedding of clox_SourceStreamNeedsARefill (src/lib/source/source_stream.c lines 98-101): !isInitialized || (forwardLocation.ch + offset >= buffer->size). -/
def clox_SourceStreamNeedsARefill (s : CloxSourceStream) (offset : Nat) : Bool :=
  !s.isInitialized || decide (s.buffer.size ≤ s.forwardLocation.ch + offset)

/-- Embedding of clox_SourceStreamRefill (src/lib/source/source_stream.c lines 103-140), restricted to the guard the claims exercise: when the stream is not open or has no file handle the function returns FALSE at once, mutating nothing. The remaining body reads from the open file handle (feof / fread / fgets), external input this model does not carry; every stream the theorems below evaluate has isOpen = FALSE and no handle, so that body is unreachable for them and is modelled as the same failed refill. -/
def clox_SourceStreamRefill (s : CloxSourceStream) : Bool × CloxSourceStream :=
  if !s.isOpen || !s.hasStream then (false, s) else (false, s)

/-- Wrapping of a uint64_t computation fed an Int. -/
def wrap64 (a : Int) : Nat :=
  (a % (18446744073709551616 : Int)).toNat

/-- Wrapping of a uint32_t computation fed an Int. -/
def wrap32 (a : Int) : Nat :=
  (a % (4294967296 : Int)).toNat

/-- Line-terminator byte, the EOL macro of src/include/clox/base/file.h. -/
def EOL : Int := 10

/-- Embedding of clox_SourceStreamRead (src/lib/source/source_stream.c lines 150-186). offsetInit models the function's uninitialized offset local, whose incoming value cloxSourceBufferGetChar consults before overwriting it. When a refill is needed and fails the function returns EOF with the stream unchanged; otherwise it decodes at forwardLocation.ch, updates column and line per the decoded codepoint (EOF/NUL: nothing; EOL: column 0, line + 1; otherwise column += offset), and finally adds offset to both ch fields. -/
def clox_SourceStreamRead (s : CloxSourceStream) (offsetInit : Int) : Int × CloxSourceStream :=
  if clox_SourceStreamNeedsARefill s 0 = true ∧ (clox_SourceStreamRefill s).1 = false then
    (-1, s)
  else
    let r := cloxSourceBufferGetChar s.buffer s.encoding s.forwardLocation.ch offsetInit
    let result := r.1
    let offset := r.2
    let s1 :=
      if result = -1 ∨ result = 0 then s
      else if result = EOL then
        { s with
          streamLocation := { s.streamLocation with co := 0, ln := wrap32 ((s.streamLocation.ln : Int) + 1) }
          forwardLocation := { s.forwardLocation with co := 0, ln := wrap32 ((s.forwardLocation.ln : Int) + 1) } }
      else
        { s with
          streamLocation := { s.streamLocation with co := wrap32 ((s.streamLocation.co : Int) + offset) }
          forwardLocation := { s.forwardLocation with co := wrap32 ((s.forwardLocation.co : Int) + offset) } }
    let s2 :=
      { s1 with
        streamLocation := { s1.streamLocation with ch := wrap64 ((s1.streamLocation.ch : Int) + offset) }
        forwardLocation := { s1.forwardLocation with ch := wrap64 ((s1.forwardLocation.ch : Int) + offset) } }
    (result, s2)

/-- Answer of specUtf8Decode arranged the way utf8_iterate reports its result: on success the pair (width, codepoint), on rejection the error return paired with codepoint -1 (and return 0 in place of the error for empty input, where utf8_iterate reports end of input). -/
def specUtf8Pair (l : List Nat) : Int × Int :=
  (specUtf8Decode l).elim
    ((if l.length = 0 then (0 : Int) else UTF8_ERROR_INVALIDUTF8), (-1 : Int))
    (fun cw => ((cw.2 : Int), (cw.1 : Int)))

/-- Block holding the single byte 5: one push onto a block initialized with capacity 8. -/
def writeProbeBlock : CloxCodeBlock :=
  (cloxCodeBlockPush (cloxInitCodeBlock 8) 5).getD (cloxInitCodeBlock 0)

/-- Block holding the single byte 42: one push onto a block initialized with capacity 8. -/
def getProbeBlock : CloxCodeBlock :=
  (cloxCodeBlockPush (cloxInitCodeBlock 8) 42).getD (cloxInitCodeBlock 0)

/-- Block holding the bytes 1, 2, 3, 4: four pushes onto a block initialized with capacity 4 (aligned to 8). -/
def readProbeBlock : CloxCodeBlock :=
  (((cloxCodeBlockPush (cloxInitCodeBlock 4) 1).bind (fun b => cloxCodeBlockPush b 2)).bind
    (fun b => (cloxCodeBlockPush b 3).bind (fun b2 => cloxCodeBlockPush b2 4))).getD
    (cloxInitCodeBlock 0)

/-- Block holding the single byte 0x00 (the nop opcode): one push onto a block initialized with capacity 8. -/
def nopBlock : CloxCodeBlock :=
  (cloxCodeBlockPush (cloxInitCodeBlock 8) 0).getD (cloxInitCodeBlock 0)

/-- Block filled to capacity with the bytes 1..8: eight pushes onto a block initialized with capacity 8, so count = capacity = 8. -/
def fullBlock : CloxCodeBlock :=
  { array := [1, 2, 3, 4, 5, 6, 7, 8], count := 8, capacity := 8 }

/-- Source stream over the text literal "ab\ncd" (bytes 97 98 10 99 100), UTF-8 encoded. -/
def abcdStream : CloxSourceStream :=
  cloxCreateSourceStreamFromText [97, 98, 10, 99, 100] CloxSourceEncoding.utf8

/-- Claim C2 evaluated at a failing input: on a block holding the byte 5 at index 0 with count 1, cloxCodeBlockWrite of the one-byte span [7] leaves count at 1 instead of advancing it to 2, and overwrites the stored byte 5 with 7 instead of appending after it. -/
theorem cloxCodeBlockWrite_clobbers_and_keeps_count :
    writeProbeBlock.count = 1 ∧
    writeProbeBlock.array.getD 0 0 = 5 ∧
    (cloxCodeBlockWrite writeProbeBlock [7]).count = 1 ∧
    (cloxCodeBlockWrite writeProbeBlock [7]).array.getD 0 0 = 7 := by
  decide

/-- Claim C3 evaluated at a failing input: on a non-empty block (count 1, byte 42 at index 0), cloxCodeBlockGet 0 aborts with index-out-of-bounds instead of returning 42, while cloxCodeBlockGet 4 — an index at or beyond count but below capacity — succeeds instead of failing. -/
theorem cloxCodeBlockGet_rejects_index_zero :
    getProbeBlock.count = 1 ∧
    getProbeBlock.array.getD 0 0 = 42 ∧
    cloxCodeBlockGet getProbeBlock 0 = none ∧
    (cloxCodeBlockGet getProbeBlock 4).isSome = true := by
  decide

/-- Claim C4 evaluated at a failing input: pushing S = [1, 2, 3, 4] into a fresh block and reading 4 bytes returns read-count 4, but the second output byte is array[2] = 3 rather than S[1] = 2 (the loop advances both of its counters and subscripts by their sum), and the reader is NOT reported at_end afterwards, because cloxCodeBlockReaderIsAtEnd returns index < count. -/
theorem cloxCodeBlockReaderRead_misreads_bytes :
    readProbeBlock.count = 4 ∧
    readProbeBlock.array.getD 1 0 = 2 ∧
    (cloxCodeBlockReaderRead (cloxInitCodeBlockReader readProbeBlock) 4).1 = 4 ∧
    (cloxCodeBlockReaderRead (cloxInitCodeBlockReader readProbeBlock) 4).2.1.getD 1 0 = 3 ∧
    (cloxCodeBlockReaderRead (cloxInitCodeBlockReader readProbeBlock) 4).2.2.index = 4 ∧
    cloxCodeBlockReaderIsAtEnd
      (cloxCodeBlockReaderRead (cloxInitCodeBlockReader readProbeBlock) 4).2.2 = false := by
  decide

/-- Claim C5 evaluated at a failing input: growing a zero-capacity code block multiplies the capacity by two, so it stays zero, and the push that follows writes through the still-null array — the byte is never stored and the capacity never reaches one word. (The parallel clox_BufferGrow and clox_ChunkGrow both seed a zero capacity with CLOX_SIZEOF_WORD_PTR.) -/
theorem cloxCodeBlockPush_zero_capacity_aborts :
    (clox_CodeBlockGrow (cloxInitCodeBlock 0)).capacity = 0 ∧
    cloxCodeBlockPush (cloxInitCodeBlock 0) 1 = none := by
  decide

/-- Claim C10: cloxCodeBlockPeek(block, 0) aborts whenever count = capacity even though the top element exists (cloxCodeBlockTop succeeds), and in general peek succeeds exactly when 0 < count - offset < capacity — the bound is the capacity, not the count. The size bounds are those of the C types: count is a size_t, offset a uint32_t, and a capacity within 2^64 - 2^32 of the address-space limit is what any allocatable block satisfies. -/
theorem cloxCodeBlockPeek_bounds :
    (∀ blk : CloxCodeBlock, blk.count = blk.capacity → 0 < blk.count →
        blk.count < 18446744073709551616 →
        cloxCodeBlockPeek blk 0 = none ∧ cloxCodeBlockTop blk ≠ none) ∧
    (∀ (blk : CloxCodeBlock) (offset : Nat), blk.count < 18446744073709551616 →
        offset < 4294967296 → blk.capacity ≤ 18446744069414584320 →
        ((cloxCodeBlockPeek blk offset).isSome ↔
          (0 < blk.count - offset ∧ blk.count - offset < blk.capacity))) := by
  constructor
  · intro blk h1 h2 h3
    constructor
    · unfold cloxCodeBlockPeek clox_CodeBlockCheckBounds sub64
      have hz : (blk.count + (18446744073709551616 - 0 % 18446744073709551616)) %
          18446744073709551616 = blk.count := by omega
      rw [hz]
      rw [if_neg]
      simp only [Bool.and_eq_true, decide_eq_true_eq, not_and]
      omega
    · unfold cloxCodeBlockTop
      rw [if_pos h2]
      simp
  · intro blk offset h1 h2 h3
    have hm : offset % 18446744073709551616 = offset := Nat.mod_eq_of_lt (by omega)
    simp only [cloxCodeBlockPeek, clox_CodeBlockCheckBounds, sub64, hm]
    split_ifs with h
    · simp only [Bool.and_eq_true, decide_eq_true_eq] at h
      exact iff_of_true rfl (by omega)
    · simp only [Bool.and_eq_true, decide_eq_true_eq, not_and] at h
      exact iff_of_false (by simp) (by omega)

/-- Witness for claim C10 at a concrete block: a block filled to count = capacity = 8 rejects peek at offset 0, and peek at offset 2 succeeds, matching 0 < 8 - 2 < 8. -/
theorem cloxCodeBlockPeek_bounds_witness :
    (cloxCodeBlockPeek fullBlock 0 = none ∧ cloxCodeBlockTop fullBlock ≠ none) ∧
    ((cloxCodeBlockPeek fullBlock 2).isSome ↔
      (0 < fullBlock.count - 2 ∧ fullBlock.count - 2 < fullBlock.capacity)) := by
  constructor
  · exact cloxCodeBlockPeek_bounds.1 fullBlock (by decide) (by decide) (by decide)
  · exact cloxCodeBlockPeek_bounds.2 fullBlock 2 (by decide) (by decide) (by decide)

/-- Counterexample to claim C6: at code 256 (whose table entry does not exist) the lookup reports false but names the descriptor "uknown", not "unknown"; and at the in-range unassigned code 1 it returns TRUE with a null name instead of (false, "unknown"), so the never-null-name guarantee fails as well. -/
theorem cloxGetOpCodeInfo_counterexample :
    (cloxGetOpCodeInfo 256).1 = false ∧
    (cloxGetOpCodeInfo 256).2.name = some "uknown" ∧
    (cloxGetOpCodeInfo 256).2.name ≠ some "unknown" ∧
    (cloxGetOpCodeInfo 1).1 = true ∧
    (cloxGetOpCodeInfo 1).2.name = none := by
  decide

/-- Claim C6 as amended: get_opcode_info(0x00) returns the nop descriptor; a code outside [0, 256) returns (false, name "uknown" — the source's spelling — mode NONE, the code echoed); an in-range code whose entry was never assigned returns (true, the zero-filled entry: null name, code 0, mode NONE). -/
theorem cloxGetOpCodeInfo_amended :
    cloxGetOpCodeInfo 0 = (true, { name := some "nop", code := 0, mode := CLOX_OP_MODE_NONE }) ∧
    (∀ c : Int, c < 0 ∨ 256 ≤ c →
        cloxGetOpCodeInfo c =
          (false, { name := some "uknown", code := c, mode := CLOX_OP_MODE_NONE })) ∧
    (∀ c : Int, 0 < c → c < 256 →
        cloxGetOpCodeInfo c =
          (true, { name := none, code := 0, mode := CLOX_OP_MODE_NONE })) := by
  refine ⟨by decide, fun c h => ?_, fun c h1 h2 => ?_⟩
  · unfold cloxGetOpCodeInfo
    rw [if_pos h]
  · unfold cloxGetOpCodeInfo
    rw [if_neg (by omega)]
    unfold clox_OpCodeInfos
    rw [if_neg (by omega)]

/-- Witness for claim C6 at concrete codes 300 and 2. -/
theorem cloxGetOpCodeInfo_amended_witness :
    cloxGetOpCodeInfo 300 =
      (false, { name := some "uknown", code := 300, mode := CLOX_OP_MODE_NONE }) ∧
    cloxGetOpCodeInfo 2 = (true, { name := none, code := 0, mode := CLOX_OP_MODE_NONE }) :=
  ⟨cloxGetOpCodeInfo_amended.2.1 300 (by omega), cloxGetOpCodeInfo_amended.2.2 2 (by omega) (by omega)⟩

/-- Counterexample to claim C7: disassembling the block holding the single byte 0x00 does not produce "00000000 nop      \n" (it produces the empty string: the at-end predicate the loop negates returns index < count, so the loop never runs on a non-empty block). -/
theorem cloxDisassembleCodeBlock_nop_counterexample :
    nopBlock.count = 1 ∧
    nopBlock.array.getD 0 0 = 0 ∧
    cloxDisassembleCodeBlock nopBlock ≠ some "00000000 nop      \n" := by
  decide

/-- Claim C7 as amended: disassembling the Code Block holding the single byte 0x00 produces empty output, as does disassembling any block with a non-null array and at least one stored byte — the while condition !cloxCodeBlockReaderIsAtEnd(r) is !(index < count), false at entry. -/
theorem cloxDisassembleCodeBlock_nop_amended :
    cloxDisassembleCodeBlock nopBlock = some "" ∧
    (∀ blk : CloxCodeBlock, 0 < blk.count → blk.array ≠ [] →
        cloxDisassembleCodeBlock blk = some "") := by
  refine ⟨by decide, fun blk h1 h2 => ?_⟩
  simp only [cloxDisassembleCodeBlock, cloxInitCodeBlockReader]
  rw [if_neg (by simp [h2])]
  simp only [clox_DisassembleLoop, cloxCodeBlockReaderIsAtEnd]
  rw [if_neg (by simp [h1])]

/-- Witness for claim C7 at the concrete nop block, through the general clause. -/
theorem cloxDisassembleCodeBlock_nop_amended_witness :
    cloxDisassembleCodeBlock nopBlock = some "" :=
  cloxDisassembleCodeBlock_nop_amended.2 nopBlock (by decide) (by decide)

/-- Claim C1 evaluated at the failing input: on the stream created from the text literal "ab\ncd", every read returns EOF (-1) — not the codepoint of a single character — and leaves the stream exactly as it was, locations included, whatever value the uninitialized offset local holds: the stream is created uninitialized, so the first read demands a refill, and the refill of a stream with no file handle fails. All four successive reads therefore return -1 with the location triple stuck at (0, 0, 0). -/
theorem clox_text_stream_reads_return_eof :
    (∀ g : Int, clox_SourceStreamRead abcdStream g = (-1, abcdStream)) ∧
    abcdStream.streamLocation = { ch := 0, co := 0, ln := 0 } ∧
    ((-1 : Int) = 97 → False) := by
  refine ⟨fun g => ?_, by decide, by decide⟩
  unfold clox_SourceStreamRead
  rw [if_pos (by decide)]

set_option maxHeartbeats 800000 in
/-- Agreement of decoder and specification on one-byte input. -/
theorem utf8_iterate_eq_specPair_one (b0 : Nat) (h0 : b0 < 256) :
    utf8_iterate [b0] (([b0] : List Nat).length : Int) = specUtf8Pair [b0] := by
  simp only [utf8_iterate, specUtf8Pair, specUtf8Decode, utf_cont, List.getD_cons_zero,
    List.getD_cons_succ, List.length_cons, List.length_nil]
  norm_num
  split_ifs <;>
    first
      | omega
      | (simp [UTF8_ERROR_INVALIDUTF8] <;> omega)

set_option maxHeartbeats 800000 in
/-- Agreement of decoder and specification on two-byte input. -/
theorem utf8_iterate_eq_specPair_two (b0 b1 : Nat) (h0 : b0 < 256) (h1 : b1 < 256) :
    utf8_iterate [b0, b1] (([b0, b1] : List Nat).length : Int) = specUtf8Pair [b0, b1] := by
  simp only [utf8_iterate, specUtf8Pair, specUtf8Decode, utf_cont, List.getD_cons_zero,
    List.getD_cons_succ, List.length_cons, List.length_nil]
  norm_num
  split_ifs <;>
    first
      | omega
      | (simp [UTF8_ERROR_INVALIDUTF8] <;> omega)

set_option maxHeartbeats 2000000 in
/-- Agreement of decoder and specification on three-byte input. -/
theorem utf8_iterate_eq_specPair_three (b0 b1 b2 : Nat) (h0 : b0 < 256) (h1 : b1 < 256)
    (h2 : b2 < 256) :
    utf8_iterate [b0, b1, b2] (([b0, b1, b2] : List Nat).length : Int) =
      specUtf8Pair [b0, b1, b2] := by
  simp only [utf8_iterate, specUtf8Pair, specUtf8Decode, utf_cont, List.getD_cons_zero,
    List.getD_cons_succ, List.length_cons, List.length_nil]
  norm_num
  split_ifs <;>
    first
      | omega
      | (simp [UTF8_ERROR_INVALIDUTF8] <;> omega)

set_option maxHeartbeats 3000000 in
/-- Agreement of decoder and specification on input of four or more bytes. -/
theorem utf8_iterate_eq_specPair_four (b0 b1 b2 b3 : Nat) (rest : List Nat) (h0 : b0 < 256)
    (h1 : b1 < 256) (h2 : b2 < 256) (h3 : b3 < 256) :
    utf8_iterate (b0 :: b1 :: b2 :: b3 :: rest)
        (((b0 :: b1 :: b2 :: b3 :: rest) : List Nat).length : Int) =
      specUtf8Pair (b0 :: b1 :: b2 :: b3 :: rest) := by
  simp only [utf8_iterate, specUtf8Pair, specUtf8Decode, utf_cont, List.getD_cons_zero,
    List.getD_cons_succ, List.length_cons, List.length_nil]
  norm_num
  split_ifs <;>
    first
      | omega
      | (simp [UTF8_ERROR_INVALIDUTF8] <;> omega)

/-- Agreement of the embedded decoder with the specification decoder on byte input fed its own length, the way cloxSourceBufferGetChar calls it: the same acceptance decisions, the same width and scalar on success, error return -3 on rejection. -/
theorem utf8_iterate_eq_specPair (l : List Nat) (hb : ∀ b ∈ l, b < 256) :
    utf8_iterate l (l.length : Int) = specUtf8Pair l := by
  rcases l with _ | ⟨b0, _ | ⟨b1, _ | ⟨b2, _ | ⟨b3, rest⟩⟩⟩⟩
  · simp [utf8_iterate, specUtf8Pair, specUtf8Decode]
  · exact utf8_iterate_eq_specPair_one b0 (hb b0 (by simp))
  · exact utf8_iterate_eq_specPair_two b0 b1 (hb b0 (by simp)) (hb b1 (by simp))
  · exact utf8_iterate_eq_specPair_three b0 b1 b2 (hb b0 (by simp)) (hb b1 (by simp))
      (hb b2 (by simp))
  · exact utf8_iterate_eq_specPair_four b0 b1 b2 b3 rest (hb b0 (by simp)) (hb b1 (by simp))
      (hb b2 (by simp)) (hb b3 (by simp))

set_option maxHeartbeats 1000000 in
set_option maxRecDepth 8000 in
/-- Bounds of the specification decoder: a successful decode has width 1..4 and a Unicode scalar value — below 0x110000 and outside the surrogate range. -/
theorem specUtf8Decode_bounds (l : List Nat) (cp w : Nat) (h : specUtf8Decode l = some (cp, w)) :
    1 ≤ w ∧ w ≤ 4 ∧ cp < 1114112 ∧ ¬ (55296 ≤ cp ∧ cp < 57344) := by
  rcases l with _ | ⟨b0, _ | ⟨b1, _ | ⟨b2, _ | ⟨b3, rest⟩⟩⟩⟩
  · simp [specUtf8Decode] at h
  · simp only [specUtf8Decode] at h
    split_ifs at h <;> cases h <;> omega
  · simp only [specUtf8Decode] at h
    split_ifs at h <;> cases h <;> omega
  · simp only [specUtf8Decode] at h
    split_ifs at h <;> cases h <;> omega
  · simp only [specUtf8Decode] at h
    split_ifs at h <;> cases h <;> omega

/-- Counterexample to claim C8: decoding the malformed byte 0x80 does not return a byte-width of 1 — utf8_iterate returns the error code -3 (UTF8_ERROR_INVALIDUTF8) as its result, outside {0, 1, 2, 3, 4}, and cloxSourceBufferGetChar stores that -3 into the caller's width variable. -/
theorem utf8_width_counterexample :
    utf8_iterate [128] 1 = (UTF8_ERROR_INVALIDUTF8, -1) ∧
    (UTF8_ERROR_INVALIDUTF8 = (1 : Int) → False) ∧
    (cloxSourceBufferGetChar { data := [128, 0], size := 2 } CloxSourceEncoding.utf8 0 1).2 =
      UTF8_ERROR_INVALIDUTF8 := by
  decide

set_option maxHeartbeats 800000 in
/-- Claim C8 as amended: decoding at a malformed position returns codepoint -1 together with the error return UTF8_ERROR_INVALIDUTF8 (-3) — not a byte-width of 1, so the advance-at-least-one-byte guarantee does not hold; a successful decode returns a width in {1, 2, 3, 4}; the return is 0 exactly when the remaining length is 0 (end of input). -/
theorem utf8_width_amended :
    (∀ (str : List Nat) (strlen : Int),
        (utf8_iterate str strlen).1 = 0 ∨
        (utf8_iterate str strlen).1 = UTF8_ERROR_INVALIDUTF8 ∨
        (1 ≤ (utf8_iterate str strlen).1 ∧ (utf8_iterate str strlen).1 ≤ 4)) ∧
    (∀ (str : List Nat) (strlen : Int), ((utf8_iterate str strlen).1 = 0 ↔ strlen = 0)) ∧
    (∀ (str : List Nat) (strlen : Int),
        (utf8_iterate str strlen).1 = UTF8_ERROR_INVALIDUTF8 →
          (utf8_iterate str strlen).2 = -1) := by
  refine ⟨fun str strlen => ?_, fun str strlen => ?_, fun str strlen => ?_⟩ <;>
    (simp only [utf8_iterate]
     split_ifs <;> simp_all [UTF8_ERROR_INVALIDUTF8])

/-- Witness for claim C8 at concrete inputs: the empty input reports 0, the malformed byte 0x80 reports the error with codepoint -1. -/
theorem utf8_width_amended_witness :
    ((utf8_iterate [] 0).1 = 0 ↔ (0 : Int) = 0) ∧
    ((utf8_iterate [128] 1).1 = UTF8_ERROR_INVALIDUTF8 → (utf8_iterate [128] 1).2 = -1) :=
  ⟨utf8_width_amended.2.1 [] 0, utf8_width_amended.2.2 [128] 1⟩

/-- Claim C9: the embedded utf8_iterate accepts exactly the well-formed UTF-8 sequences of the specification decoder — ASCII or leading byte C2..F4 with the required continuation bytes in 80..BF and the tightened second-byte ranges at E0, ED, F0, F4 — and on success returns the standard scalar value with the matching width; every accepted scalar is below 0x110000 and outside the surrogate range. -/
theorem utf8_iterate_matches_spec (l : List Nat) (hb : ∀ b ∈ l, b < 256) :
    ((0 : Int) < (utf8_iterate l (l.length : Int)).1 ↔ (specUtf8Decode l).isSome) ∧
    (∀ cp w : Nat, specUtf8Decode l = some (cp, w) →
        utf8_iterate l (l.length : Int) = ((w : Int), (cp : Int)) ∧
        cp < 1114112 ∧ ¬ (55296 ≤ cp ∧ cp < 57344)) := by
  have he := utf8_iterate_eq_specPair l hb
  constructor
  · rw [he]
    cases hd : specUtf8Decode l with
    | none =>
      simp only [specUtf8Pair, hd, Option.elim_none, Option.isSome_none]
      split_ifs <;> simp [UTF8_ERROR_INVALIDUTF8]
    | some cw =>
      obtain ⟨cp, w⟩ := cw
      have hbnd := specUtf8Decode_bounds l cp w hd
      simp only [specUtf8Pair, hd, Option.elim_some, Option.isSome_some]
      exact iff_of_true (by simp <;> omega) trivial
  · intro cp w hd
    have hbnd := specUtf8Decode_bounds l cp w hd
    refine ⟨?_, hbnd.2.2.1, hbnd.2.2.2⟩
    rw [he]
    simp [specUtf8Pair, hd]

/-- Witness for claim C9 at the three-byte sequence E4 B8 AD (U+4E2D). -/
theorem utf8_iterate_matches_spec_witness :
    ((0 : Int) < (utf8_iterate [228, 184, 173] (([228, 184, 173] : List Nat).length : Int)).1 ↔
      (specUtf8Decode [228, 184, 173]).isSome) ∧
    (∀ cp w : Nat, specUtf8Decode [228, 184, 173] = some (cp, w) →
        utf8_iterate [228, 184, 173] (([228, 184, 173] : List Nat).length : Int) =
          ((w : Int), (cp : Int)) ∧
        cp < 1114112 ∧ ¬ (55296 ≤ cp ∧ cp < 57344)) :=
  utf8_iterate_matches_spec [228, 184, 173] (by decide)
